import Mathlib

/-!
Shallow embedding of the view layer of the `hw05_final` blogging
application (`posts/views.py`) together with the parts of its data model
and form layer that the handlers use.  The persisted relational state is a
`Store`; each Django view becomes a function from a `Store` (and the
request data it reads) to a response paired with the successor store.
Framework collaborators that are not part of the repository's source
(the paginator, the `login_required` decorator, the page cache) and the
repository files absent from the sources (`models.py`, `forms.py`) are
modelled from the specification, and each such definition says so in its
doc comment.
-/

namespace HW05

abbrev UserId := Nat
abbrev PostId := Nat
abbrev GroupId := Nat

/-- Modelled from the spec: `models.py` is missing from the sources; a User
row has a unique username (§3).  Only the fields the handlers read appear. -/
structure User where
  id : UserId
  username : String
deriving DecidableEq, Repr

/-- Modelled from the spec: a Group row with its unique slug (§3). -/
structure Group where
  id : GroupId
  title : String
  slug : String
deriving DecidableEq, Repr

/-- Modelled from the spec: a Post row — required text, author foreign key,
optional group, optional image (§3).  `image = none` is the empty image
field; `image = some n` stores the uploaded file named `n`. -/
structure Post where
  id : PostId
  text : String
  author : UserId
  group : Option GroupId
  image : Option String
deriving DecidableEq, Repr

/-- Modelled from the spec: a Comment row — text plus author and post
foreign keys (§3). -/
structure Comment where
  id : Nat
  text : String
  author : UserId
  post : PostId
deriving DecidableEq, Repr

/-- Modelled from the spec: a Follow row, the directed (user, author)
subscription edge (§3). -/
structure Follow where
  user : UserId
  author : UserId
deriving DecidableEq, Repr

/-- The persisted data model the handlers read and mutate.  The `next…`
counters model the database's primary-key allocation. -/
structure Store where
  users : List User
  groups : List Group
  posts : List Post
  comments : List Comment
  follows : List Follow
  nextPostId : PostId
  nextCommentId : Nat
deriving DecidableEq, Repr

/-- An uploaded file in `request.FILES`.  `isImage` abstracts the outcome
of the framework's raster-format check on the file's bytes. -/
structure UploadedFile where
  name : String
  isImage : Bool
deriving DecidableEq, Repr

/-- The submitted POST body, restricted to the field names any handler or
form of this application could look at.  `author` and `post` are the
forgeable fields a client may include; no form of this application has
them as fields. -/
structure FormData where
  text : Option String
  group : Option GroupId
  author : Option UserId
  post : Option PostId
deriving DecidableEq, Repr

def FormData.empty : FormData := ⟨none, none, none, none⟩

/-- Python truthiness of a `QueryDict`: empty means falsy. -/
def FormData.isEmpty (d : FormData) : Bool :=
  d.text.isNone && d.group.isNone && d.author.isNone && d.post.isNone

/-- The idiom `request.POST or None` from the views: an empty body is
replaced by `None`, leaving the form unbound. -/
def orNone (d : FormData) : Option FormData :=
  if d.isEmpty then none else some d

/-- Modelled from the spec: `forms.py` is missing from the sources.
`CommentForm` accepts `{text (required, non-empty)}` (§4.2); binding it to
data that is present (even an empty dict) makes it bound. -/
structure CommentForm where
  is_bound : Bool
  data : FormData
deriving DecidableEq, Repr

def CommentForm.bind : Option FormData → CommentForm
  | none => ⟨false, FormData.empty⟩
  | some d => ⟨true, d⟩

/-- Modelled from the spec: a bound `CommentForm` is valid iff its text is
present and non-empty; an unbound form is not valid (§4.2). -/
def CommentForm.is_valid (f : CommentForm) : Bool :=
  f.is_bound &&
    match f.data.text with
    | some t => !(t = "")
    | none => false

/-- Modelled from the spec: `PostForm` accepts `{text (required,
non-empty), group (optional, must reference an existing Group), image
(optional, must decode as a supported image format)}` (§4.2).  `files` is
what the view passed as the form's file payload; `inst` is the existing
Post instance when editing. -/
structure PostForm where
  is_bound : Bool
  data : FormData
  files : Option UploadedFile
  inst : Option Post
deriving DecidableEq, Repr

def PostForm.bind (d : Option FormData) (files : Option UploadedFile)
    (inst : Option Post) : PostForm :=
  match d with
  | none => ⟨false, FormData.empty, files, inst⟩
  | some d => ⟨true, d, files, inst⟩

/-- Modelled from the spec: `PostForm` validation — text required and
non-empty, group (when given) must exist, an uploaded file must be an
image; rejection otherwise (§4.2, §7 UnsupportedMediaType). -/
def PostForm.is_valid (s : Store) (f : PostForm) : Bool :=
  f.is_bound &&
    (match f.data.text with
     | some t => !(t = "")
     | none => false) &&
    (match f.data.group with
     | some g => s.groups.any (fun gr => gr.id == g)
     | none => true) &&
    (match f.files with
     | some file => file.isImage
     | none => true)

/-- The image value the form would store: the uploaded file's name when a
file was bound, otherwise nothing new. -/
def PostForm.cleanedImage (f : PostForm) : Option String :=
  f.files.map (fun file => file.name)

/-- Modelled from the spec: the paginator's page-count metadata — pages of
10, at least one page even when empty (§4.3). -/
def num_pages (count perPage : Nat) : Nat :=
  max 1 ((count + perPage - 1) / perPage)

/-- A rendered page: the slice plus the metadata of §4.3. -/
structure Page where
  object_list : List Post
  number : Nat
  numPages : Nat
deriving DecidableEq, Repr

/-- Modelled from the spec: `Paginator(...).get_page` — the requested
1-based page number defaults to 1 when absent, is clamped to the valid
range (the last page when too high), and the returned slice has at most
`perPage` items (§4.3). -/
def get_page (objects : List Post) (perPage : Nat) (pageNumber : Option Nat) :
    Page :=
  let np := num_pages objects.length perPage
  let n := match pageNumber with
    | none => 1
    | some k => if k < 1 then 1 else if np < k then np else k
  ⟨(objects.drop ((n - 1) * perPage)).take perPage, n, np⟩

/-- Lookup translating `get_object_or_404(User, username=username)`. -/
def get_user_or_404 (s : Store) (username : String) : Option User :=
  s.users.find? (fun u => u.username == username)

/-- Lookup translating
`get_object_or_404(Post, pk=post_id, author__username=username)`. -/
def get_post_or_404 (s : Store) (username : String) (post_id : PostId) :
    Option Post :=
  s.posts.find? (fun p =>
    p.id == post_id &&
      ((s.users.find? (fun u => u.id == p.author)).map
        (fun u => u.username == username)).getD false)

/-- The responses the handlers produce.  Redirects carry their target;
rendered pages carry the context dictionary handed to the template. -/
inductive Response where
  | redirectLogin (next : String)
  | redirect (target : String)
  | notFound
  | renderIndex (page : Page)
  | renderGroup (group : Group) (page : Page)
  | renderNewPost (form : PostForm) (is_edit : Bool)
  | renderProfile (author : User) (page : Page) (count_posts : Nat)
      (following : Bool)
  | renderPostView (author : User) (username : String) (post : Post)
      (count_posts : Nat) (form : CommentForm) (comments : List Comment)
  | renderComments (form : CommentForm) (post : Post)
  | renderFollow (author : User) (count_posts : Nat) (page : Page)
deriving DecidableEq, Repr

/-- The redirect target `redirect("post_view", username, post_id)`. -/
def postViewUrl (username : String) (post_id : PostId) : String :=
  "/" ++ username ++ "/" ++ toString post_id ++ "/"

/-- The redirect target `redirect("profile", username=username)`. -/
def profileUrl (username : String) : String :=
  "/" ++ username ++ "/"

/-- Modelled from the spec: the `login_required` decorator — an
unauthenticated request is answered by a redirect to the login route
carrying the originally requested path as the `next` parameter, and the
wrapped handler never runs (§6). -/
def login_required (s : Store) (user : Option UserId) (path : String)
    (handler : UserId → Response × Store) : Response × Store :=
  match user with
  | none => (Response.redirectLogin path, s)
  | some u => handler u

/-- The uncached body of `index` (views.py 17-22): all posts, a page of
10 selected by the query-string page number. -/
def index_view (s : Store) (pageNumber : Option Nat) : Response :=
  Response.renderIndex (get_page s.posts 10 pageNumber)

/-- `group_posts` (views.py 25-44): 404 when no group has the slug,
otherwise the group's posts paginated identically to `index`. -/
def group_posts (s : Store) (slug : String) (pageNumber : Option Nat) :
    Response × Store :=
  match s.groups.find? (fun g => g.slug == slug) with
  | none => (Response.notFound, s)
  | some group =>
    let posts := s.posts.filter (fun p => p.group == some group.id)
    (Response.renderGroup group (get_page posts 10 pageNumber), s)

/-- `new_post` (views.py 47-62).  Line 56 builds the form from
`request.POST or None` alone: `request.FILES` is never passed, so the
form's file payload is `none` whatever the request carried in `files`.
On a valid form the post is saved with `author = request.user`. -/
def new_post (s : Store) (user : Option UserId) (path : String)
    (body : FormData) (files : Option UploadedFile) : Response × Store :=
  login_required s user path (fun u =>
    let form := PostForm.bind (orNone body) none none
    if !(form.is_valid s) then
      (Response.renderNewPost form false, s)
    else
      let post : Post :=
        { id := s.nextPostId
          text := form.data.text.getD ""
          author := u
          group := form.data.group
          image := form.cleanedImage }
      (Response.redirect "index",
       { s with posts := s.posts ++ [post], nextPostId := s.nextPostId + 1 }))

/-- `profile` (views.py 65-90): the author's posts paginated, their count,
and whether the authenticated viewer follows the author. -/
def profile (s : Store) (user : Option UserId) (username : String)
    (pageNumber : Option Nat) : Response × Store :=
  match get_user_or_404 s username with
  | none => (Response.notFound, s)
  | some author =>
    let following :=
      match user with
      | some u => s.follows.any (fun f => f.user == u && f.author == author.id)
      | none => false
    let post_list := s.posts.filter (fun p => p.author == author.id)
    (Response.renderProfile author (get_page post_list 10 pageNumber)
      post_list.length following, s)

/-- `post_view` (views.py 93-114).  Line 105 builds the comment form from
`request.POST` directly — without the `or None` idiom — so the form is
bound even when the body is empty. -/
def post_view (s : Store) (username : String) (post_id : PostId)
    (body : FormData) : Response × Store :=
  match get_user_or_404 s username with
  | none => (Response.notFound, s)
  | some author =>
    match get_post_or_404 s username post_id with
    | none => (Response.notFound, s)
    | some post =>
      let count_posts := (s.posts.filter (fun p => p.author == author.id)).length
      let form := CommentForm.bind (some body)
      let comments := s.comments.filter (fun c => c.post == post.id)
      (Response.renderPostView author username post count_posts form comments,
       s)

/-- `post_edit` (views.py 117-137): 404 when the post is missing, silent
redirect to `post_view` when the requester is not the author, otherwise
the form is bound to `request.POST or None` and `request.FILES or None`
with the post as instance, and a valid form updates the post in place. -/
def post_edit (s : Store) (user : Option UserId) (path : String)
    (username : String) (post_id : PostId) (body : FormData)
    (files : Option UploadedFile) : Response × Store :=
  login_required s user path (fun u =>
    match get_post_or_404 s username post_id with
    | none => (Response.notFound, s)
    | some post =>
      if !(u == post.author) then
        (Response.redirect (postViewUrl username post_id), s)
      else
        let form := PostForm.bind (orNone body) files (some post)
        if !(form.is_valid s) then
          (Response.renderNewPost form true, s)
        else
          let post' : Post :=
            { post with
              text := form.data.text.getD post.text
              group := form.data.group
              image := match form.cleanedImage with
                       | some img => some img
                       | none => post.image }
          (Response.redirect (postViewUrl username post_id),
           { s with posts :=
              s.posts.map (fun p => if p.id == post.id then post' else p) }))

/-- `add_comment` (views.py 140-158): on a valid form the comment is saved
with `author = request.user` and `post` the post from the URL; the
submitted body's `author` and `post` fields are not form fields and are
never read. -/
def add_comment (s : Store) (user : Option UserId) (path : String)
    (username : String) (post_id : PostId) (body : FormData) :
    Response × Store :=
  login_required s user path (fun u =>
    match get_post_or_404 s username post_id with
    | none => (Response.notFound, s)
    | some post =>
      let form := CommentForm.bind (orNone body)
      if !form.is_valid then
        (Response.renderComments form post, s)
      else
        let comment : Comment :=
          { id := s.nextCommentId
            text := form.data.text.getD ""
            author := u
            post := post.id }
        (Response.redirect (postViewUrl username post_id),
         { s with comments := s.comments ++ [comment],
                  nextCommentId := s.nextCommentId + 1 }))

/-- The feed queryset of `follow_index` (views.py 169):
`Post.objects.filter(author__following__user=request.user)` — the posts
whose author is the author of a Follow row whose user is the requester. -/
def follow_post_list (s : Store) (u : UserId) : List Post :=
  s.posts.filter (fun p =>
    s.follows.any (fun f => f.author == p.author && f.user == u))

/-- `follow_index` (views.py 161-180): the requester's own User row is
looked up by username, and the followed authors' posts are paginated. -/
def follow_index (s : Store) (user : Option UserId) (path : String)
    (pageNumber : Option Nat) : Response × Store :=
  login_required s user path (fun u =>
    match s.users.find? (fun us => us.id == u) with
    | none => (Response.notFound, s)
    | some author =>
      let post_list := follow_post_list s u
      (Response.renderFollow author post_list.length
        (get_page post_list 10 pageNumber), s))

/-- `profile_follow` (views.py 183-192): a Follow row is created only when
the requester is not the named author and no such row exists yet; the
response is always a redirect to the profile. -/
def profile_follow (s : Store) (user : Option UserId) (path : String)
    (username : String) : Response × Store :=
  login_required s user path (fun u =>
    match get_user_or_404 s username with
    | none => (Response.notFound, s)
    | some author =>
      let follow := s.follows.any (fun f => f.user == u && f.author == author.id)
      if !(u == author.id) && follow == false then
        (Response.redirect (profileUrl username),
         { s with follows := s.follows ++ [⟨u, author.id⟩] })
      else
        (Response.redirect (profileUrl username), s))

/-- `profile_unfollow` (views.py 195-202): every Follow row matching
(requester, author) is deleted; the response is always a redirect to the
profile. -/
def profile_unfollow (s : Store) (user : Option UserId) (path : String)
    (username : String) : Response × Store :=
  login_required s user path (fun u =>
    match get_user_or_404 s username with
    | none => (Response.notFound, s)
    | some author =>
      (Response.redirect (profileUrl username),
       { s with follows :=
          s.follows.filter (fun f => !(f.user == u && f.author == author.id)) }))

/-- One stored cache entry: the page's URL (query string included), the
rendered response, and the wall-clock second it was stored. -/
structure CacheEntry where
  url : String
  response : Response
  storedAt : Nat
deriving DecidableEq, Repr

abbrev Cache := List CacheEntry

/-- Modelled from the spec: the `cache_page(20, key_prefix="index_page")`
decorator — a response stored for a URL is served unchanged to any request
for that URL arriving strictly within the window, without running the
wrapped view; otherwise the view runs and its response is stored (§4.4).
Expiry is wall-clock only; nothing else invalidates the entry. -/
def cache_page (timeout : Nat) (c : Cache) (now : Nat) (url : String)
    (compute : Unit → Response) : Response × Cache :=
  match c.find? (fun e => e.url == url && now < e.storedAt + timeout) with
  | some e => (e.response, c)
  | none =>
    let r := compute ()
    (r, ⟨url, r, now⟩ :: c)

/-- `index` (views.py 10-22): the uncached body behind the 20-second
`cache_page` decorator. -/
def index (s : Store) (c : Cache) (now : Nat) (url : String)
    (pageNumber : Option Nat) : Response × Cache :=
  cache_page 20 c now url (fun _ => index_view s pageNumber)

/-- One inbound request, dispatched by the external router to a handler.
`user` is the authenticated identity (`none` when anonymous) and `path`
the requested path, which `login_required` echoes as `next`. -/
inductive Req where
  | rIndex (pageNumber : Option Nat)
  | rGroupPosts (slug : String) (pageNumber : Option Nat)
  | rNewPost (user : Option UserId) (path : String) (body : FormData)
      (files : Option UploadedFile)
  | rProfile (user : Option UserId) (username : String)
      (pageNumber : Option Nat)
  | rPostView (username : String) (post_id : PostId) (body : FormData)
  | rPostEdit (user : Option UserId) (path : String) (username : String)
      (post_id : PostId) (body : FormData) (files : Option UploadedFile)
  | rAddComment (user : Option UserId) (path : String) (username : String)
      (post_id : PostId) (body : FormData)
  | rFollowIndex (user : Option UserId) (path : String)
      (pageNumber : Option Nat)
  | rProfileFollow (user : Option UserId) (path : String) (username : String)
  | rProfileUnfollow (user : Option UserId) (path : String)
      (username : String)
deriving DecidableEq, Repr

/-- Dispatch of a request to its handler, returning the successor store. -/
def handle (s : Store) : Req → Response × Store
  | Req.rIndex pn => (index_view s pn, s)
  | Req.rGroupPosts slug pn => group_posts s slug pn
  | Req.rNewPost u p body files => new_post s u p body files
  | Req.rProfile u username pn => profile s u username pn
  | Req.rPostView username post_id body => post_view s username post_id body
  | Req.rPostEdit u p username post_id body files =>
      post_edit s u p username post_id body files
  | Req.rAddComment u p username post_id body =>
      add_comment s u p username post_id body
  | Req.rFollowIndex u p pn => follow_index s u p pn
  | Req.rProfileFollow u p username => profile_follow s u p username
  | Req.rProfileUnfollow u p username => profile_unfollow s u p username

/-- The stores reachable through the handlers: any store with no Follow
rows yet (user registration happens outside this view layer), closed
under handling one request. -/
inductive Reachable : Store → Prop where
  | init (s : Store) : s.follows = [] → Reachable s
  | step (s : Store) (r : Req) : Reachable s → Reachable (handle s r).2

/-- At most one row per (user, author) pair, and no self-follow row. -/
def FollowListInv (l : List Follow) : Prop :=
  l.Pairwise (fun f g => f.user ≠ g.user ∨ f.author ≠ g.author) ∧
  ∀ f ∈ l, f.user ≠ f.author

/-- The Follow-table invariant of §3: at most one row per (user, author)
pair, and no self-follow row. -/
def FollowInv (s : Store) : Prop :=
  FollowListInv s.follows

/-! ### Concrete fixtures, mirroring the test suite's setup -/

def sampleUser : User := ⟨1, "test_user"⟩

def leo : User := ⟨2, "leo"⟩

def sampleGroup : Group := ⟨1, "test group", "test_group"⟩

/-- The store right after the test fixtures: two users, one group, no
posts, comments or follows. -/
def sampleStore : Store := ⟨[sampleUser, leo], [sampleGroup], [], [], [], 1, 1⟩

def samplePost : Post := ⟨1, "Text test!", 1, some 1, none⟩

/-- `sampleStore` after `test_user` has published one post. -/
def storeWithPost : Store :=
  ⟨[sampleUser, leo], [sampleGroup], [samplePost], [], [], 2, 1⟩

/-- Twenty-five posts: three pages of ten, ten, five. -/
def postList25 : List Post := List.replicate 25 samplePost

/-- `followStore`: leo (id 2) follows `test_user` (id 1), who has one
post; leo has one post of his own. -/
def followStore : Store :=
  ⟨[sampleUser, leo], [sampleGroup],
   [samplePost, ⟨2, "Leo post", 2, none, none⟩], [], [⟨2, 1⟩], 3, 1⟩

/-! ### Helper lemmas -/

/-- The comment form built from `request.POST or None` is valid exactly
when the submitted text is present and non-empty; no other field of the
body matters. -/
theorem commentForm_bind_valid (body : FormData) :
    (CommentForm.bind (orNone body)).is_valid =
      match body.text with
      | some t => !(t = "")
      | none => false := by
  unfold orNone
  by_cases h : body.isEmpty = true
  · have ht : body.text = none := by
      unfold FormData.isEmpty at h
      simp only [Bool.and_eq_true, Option.isNone_iff_eq_none] at h
      exact h.1.1.1
    simp [h, CommentForm.bind, CommentForm.is_valid, ht]
  · simp [h, CommentForm.bind, CommentForm.is_valid]

/-- The text the bound comment form carries is the submitted text. -/
theorem commentForm_bind_text (body : FormData) :
    (CommentForm.bind (orNone body)).data.text = body.text := by
  unfold orNone
  by_cases h : body.isEmpty = true
  · have ht : body.text = none := by
      unfold FormData.isEmpty at h
      simp only [Bool.and_eq_true, Option.isNone_iff_eq_none] at h
      exact h.1.1.1
    simp [h, CommentForm.bind, FormData.empty, ht]
  · simp [h, CommentForm.bind]

/-- A `PostForm` bound with no file payload cleans to no image. -/
theorem bind_no_files_cleanedImage (d : Option FormData) (inst : Option Post) :
    (PostForm.bind d none inst).cleanedImage = none := by
  cases d <;> rfl

/-- Whatever `new_post` is given, every post of the successor store was
already present or carries no image: the views never hand the uploaded
files to the form. -/
theorem new_post_posts_mem (s : Store) (u : Option UserId) (path : String)
    (body : FormData) (files : Option UploadedFile) (p : Post)
    (hp : p ∈ (new_post s u path body files).2.posts) :
    p ∈ s.posts ∨ p.image = none := by
  cases u with
  | none => exact Or.inl hp
  | some u =>
    unfold new_post login_required at hp
    dsimp only at hp
    split at hp
    · exact Or.inl hp
    · rcases List.mem_append.mp hp with h | h
      · exact Or.inl h
      · right
        simp only [List.mem_singleton] at h
        subst h
        exact bind_no_files_cleanedImage _ _

/-- Appending a fresh, non-self edge keeps the Follow-list invariant. -/
theorem followListInv_append (l : List Follow) (u a : UserId)
    (hinv : FollowListInv l) (hne : u ≠ a)
    (hnot : l.any (fun f => f.user == u && f.author == a) = false) :
    FollowListInv (l ++ [⟨u, a⟩]) := by
  obtain ⟨h1, h2⟩ := hinv
  constructor
  · rw [List.pairwise_append]
    refine ⟨h1, List.pairwise_singleton _ _, ?_⟩
    intro f hf g hg
    rw [List.mem_singleton] at hg
    subst hg
    by_contra hc
    push_neg at hc
    have hany : l.any (fun f => f.user == u && f.author == a) = true :=
      List.any_eq_true.mpr ⟨f, hf, by simp [hc.1, hc.2]⟩
    rw [hany] at hnot
    exact absurd hnot (by simp)
  · intro f hf
    rcases List.mem_append.mp hf with h | h
    · exact h2 f h
    · rw [List.mem_singleton] at h
      subst h
      exact hne

/-- Deleting rows keeps the Follow-list invariant. -/
theorem followListInv_filter (l : List Follow) (p : Follow → Bool)
    (hinv : FollowListInv l) : FollowListInv (l.filter p) :=
  ⟨hinv.1.sublist (List.filter_sublist l),
   fun f hf => hinv.2 f (List.mem_of_mem_filter hf)⟩

/-- Handling any one request preserves the Follow-table invariant: only
`profile_follow` adds a row — a fresh, non-self one — and only
`profile_unfollow` removes rows. -/
theorem handle_preserves_followInv (s : Store) (r : Req)
    (hinv : FollowInv s) : FollowInv (handle s r).2 := by
  cases r with
  | rIndex pn => exact hinv
  | rGroupPosts slug pn =>
    simp only [handle]
    unfold group_posts
    split
    · exact hinv
    · exact hinv
  | rNewPost u path body files =>
    simp only [handle]
    unfold new_post login_required
    cases u with
    | none => exact hinv
    | some u =>
      dsimp only
      split
      · exact hinv
      · exact hinv
  | rProfile u username pn =>
    simp only [handle]
    unfold profile
    split
    · exact hinv
    · exact hinv
  | rPostView username post_id body =>
    simp only [handle]
    unfold post_view
    split
    · exact hinv
    · split
      · exact hinv
      · exact hinv
  | rPostEdit u path username post_id body files =>
    simp only [handle]
    unfold post_edit login_required
    cases u with
    | none => exact hinv
    | some u =>
      dsimp only
      split
      · exact hinv
      · split
        · exact hinv
        · split
          · exact hinv
          · exact hinv
  | rAddComment u path username post_id body =>
    simp only [handle]
    unfold add_comment login_required
    cases u with
    | none => exact hinv
    | some u =>
      dsimp only
      split
      · exact hinv
      · split
        · exact hinv
        · exact hinv
  | rFollowIndex u path pn =>
    simp only [handle]
    unfold follow_index login_required
    cases u with
    | none => exact hinv
    | some u =>
      dsimp only
      split
      · exact hinv
      · exact hinv
  | rProfileFollow u path username =>
    simp only [handle]
    unfold profile_follow login_required
    cases u with
    | none => exact hinv
    | some u =>
      dsimp only
      split
      · exact hinv
      · split
        · rename_i hc
          simp only [Bool.and_eq_true, Bool.not_eq_true', beq_iff_eq,
            beq_eq_false_iff_ne] at hc
          exact followListInv_append s.follows u _ hinv hc.1
            (by simpa using hc.2)
        · exact hinv
  | rProfileUnfollow u path username =>
    simp only [handle]
    unfold profile_unfollow login_required
    cases u with
    | none => exact hinv
    | some u =>
      dsimp only
      split
      · exact hinv
      · exact followListInv_filter s.follows _ hinv

/-- Every store reachable through the handlers satisfies the Follow-table
invariant. -/
theorem reachable_followInv (s : Store) (h : Reachable s) : FollowInv s := by
  induction h with
  | init s h0 =>
    unfold FollowInv FollowListInv
    rw [h0]
    exact ⟨List.Pairwise.nil, fun f hf => absurd hf (List.not_mem_nil f)⟩
  | step s r _ ih => exact handle_preserves_followInv s r ih

/-! ### Claim theorems -/

/-- C4: an unauthenticated request to any auth-required handler
(`new_post`, `post_edit`, `add_comment`, `follow_index`, `profile_follow`,
`profile_unfollow`) is answered by a redirect to the login route whose
`next` parameter is the requested path, and the store is unchanged — no
Post, Comment or Follow row is created or modified. -/
theorem unauthenticated_login_redirect (s : Store) (path username : String)
    (post_id : PostId) (body : FormData) (files : Option UploadedFile)
    (pn : Option Nat) :
    new_post s none path body files = (Response.redirectLogin path, s) ∧
    post_edit s none path username post_id body files =
      (Response.redirectLogin path, s) ∧
    add_comment s none path username post_id body =
      (Response.redirectLogin path, s) ∧
    follow_index s none path pn = (Response.redirectLogin path, s) ∧
    profile_follow s none path username = (Response.redirectLogin path, s) ∧
    profile_unfollow s none path username = (Response.redirectLogin path, s) :=
  ⟨rfl, rfl, rfl, rfl, rfl, rfl⟩

/-- C2: when the authenticated requester is not the post's author,
`post_edit` answers with a redirect to `post_view` and the whole persisted
store — in particular every field of the post — is unchanged. -/
theorem post_edit_non_author_unchanged (s : Store) (u : UserId)
    (path username : String) (post_id : PostId) (body : FormData)
    (files : Option UploadedFile) (post : Post)
    (hfind : get_post_or_404 s username post_id = some post)
    (hne : u ≠ post.author) :
    post_edit s (some u) path username post_id body files =
      (Response.redirect (postViewUrl username post_id), s) := by
  unfold post_edit login_required
  dsimp only
  rw [hfind]
  simp [hne]

/-- Witness for C2: a concrete non-author edit request on the sample
store, answered by the redirect with nothing changed. -/
theorem post_edit_non_author_unchanged_witness :
    get_post_or_404 storeWithPost "test_user" 1 = some samplePost ∧
    (2 : UserId) ≠ samplePost.author ∧
    post_edit storeWithPost (some 2) "/test_user/1/edit/" "test_user" 1
        FormData.empty none =
      (Response.redirect (postViewUrl "test_user" 1), storeWithPost) :=
  have h1 : get_post_or_404 storeWithPost "test_user" 1 = some samplePost := by
    decide
  have h2 : (2 : UserId) ≠ samplePost.author := by decide
  ⟨h1, h2,
   post_edit_non_author_unchanged storeWithPost 2 "/test_user/1/edit/"
     "test_user" 1 FormData.empty none samplePost h1 h2⟩

/-- C8, evaluated at the failing input: a GET of `post_view` (empty POST
body) renders the post, its comments and the author's post count, but the
comment form in the view-model is bound to the empty POST data
(`is_bound = true`) because line 105 passes `request.POST` without the
`or None` idiom — not the empty/fresh unbound form the claim requires. -/
theorem post_view_get_renders_bound_form :
    post_view storeWithPost "test_user" 1 FormData.empty =
      (Response.renderPostView sampleUser "test_user" samplePost 1
        ⟨true, FormData.empty⟩ [], storeWithPost) ∧
    (CommentForm.bind (some FormData.empty)).is_bound = true := by decide

/-- Counterexample to C1 as stated: a request carrying a non-image file
and a valid text to `new_post` does create a Post — the file never reaches
the validator, so nothing rejects the request. -/
theorem new_post_non_image_creates_post :
    sampleStore.posts = [] ∧
    (new_post sampleStore (some 1) "/new/"
        ⟨some "Some text", none, none, none⟩
        (some ⟨"urls.py", false⟩)).2.posts =
      [⟨1, "Some text", 1, none, none⟩] := by decide

/-- C1 as amended: a non-image upload is rejected by the validator in
`post_edit`, leaving the store untouched, and no Post stored by `new_post`
ever references the uploaded file (its image field stays empty), though
`new_post` may still create an image-less Post from the same request. -/
theorem non_image_rejected (s : Store) (u : UserId) (path username : String)
    (post_id : PostId) (body : FormData) (file : UploadedFile)
    (hni : file.isImage = false) :
    (post_edit s (some u) path username post_id body (some file)).2 = s ∧
    ∀ p ∈ (new_post s (some u) path body (some file)).2.posts,
      p ∈ s.posts ∨ p.image = none := by
  constructor
  · unfold post_edit login_required
    dsimp only
    cases hf : get_post_or_404 s username post_id with
    | none => rfl
    | some post =>
      dsimp only
      split
      · rfl
      · have hv : (PostForm.bind (orNone body) (some file) (some post)).is_valid
            s = false := by
          unfold PostForm.is_valid PostForm.bind
          cases orNone body <;> simp [hni]
        simp [hv]
  · intro p hp
    exact new_post_posts_mem s (some u) path body (some file) p hp

/-- Witness for C1's amended theorem at a concrete non-image upload. -/
theorem non_image_rejected_witness :
    (UploadedFile.mk "urls.py" false).isImage = false ∧
    (post_edit storeWithPost (some 1) "/test_user/1/edit/" "test_user" 1
        ⟨some "Some text", none, none, none⟩
        (some ⟨"urls.py", false⟩)).2 = storeWithPost ∧
    ∀ p ∈ (new_post storeWithPost (some 1) "/new/"
        ⟨some "Some text", none, none, none⟩
        (some ⟨"urls.py", false⟩)).2.posts,
      p ∈ storeWithPost.posts ∨ p.image = none :=
  ⟨rfl,
   (non_image_rejected storeWithPost 1 "/test_user/1/edit/" "test_user" 1
     ⟨some "Some text", none, none, none⟩ ⟨"urls.py", false⟩ rfl).1,
   (non_image_rejected storeWithPost 1 "/new/" "test_user" 1
     ⟨some "Some text", none, none, none⟩ ⟨"urls.py", false⟩ rfl).2⟩

/-- C10: every Post created through `new_post` has an empty image field —
line 56 never passes `request.FILES` to the form — while `post_edit` can
attach an image. -/
theorem new_post_never_stores_image :
    (∀ s u path body files p,
       p ∈ (new_post s u path body files).2.posts →
       p ∈ s.posts ∨ p.image = none) ∧
    (∃ s u path username post_id body files p,
       p ∈ (post_edit s (some u) path username post_id body files).2.posts ∧
       p.image ≠ none) :=
  ⟨fun s u path body files p hp => new_post_posts_mem s u path body files p hp,
   ⟨storeWithPost, 1, "/test_user/1/edit/", "test_user", 1,
    ⟨some "t", none, none, none⟩, some ⟨"img.gif", true⟩,
    ⟨1, "t", 1, none, some "img.gif"⟩, by decide⟩⟩

/-- Witness for C10 at a concrete request: the post stored by `new_post`
from a request carrying an image file still has an empty image field. -/
theorem new_post_never_stores_image_witness :
    (Post.mk 1 "Some text" 1 none none) ∈ sampleStore.posts ∨
      (Post.mk 1 "Some text" 1 none none).image = none :=
  new_post_never_stores_image.1 sampleStore (some 1) "/new/"
    ⟨some "Some text", none, none, none⟩ (some ⟨"img.gif", true⟩)
    ⟨1, "Some text", 1, none, none⟩ (by decide)

/-- C9: every comment stored by `add_comment` has the authenticated
requester as author and the URL's post as target, and two requests whose
bodies agree on the text field — whatever `author` and `post` fields they
carry — leave identical stores behind. -/
theorem add_comment_authorship :
    (∀ s u path username post_id body post,
       get_post_or_404 s username post_id = some post →
       ∀ c ∈ (add_comment s (some u) path username post_id body).2.comments,
         c ∈ s.comments ∨ (c.author = u ∧ c.post = post.id)) ∧
    (∀ s u path username post_id body body',
       body.text = body'.text →
       (add_comment s (some u) path username post_id body).2 =
         (add_comment s (some u) path username post_id body').2) := by
  constructor
  · intro s u path username post_id body post hf c hc
    unfold add_comment login_required at hc
    dsimp only at hc
    rw [hf] at hc
    dsimp only at hc
    split at hc
    · exact Or.inl hc
    · rcases List.mem_append.mp hc with h | h
      · exact Or.inl h
      · simp only [List.mem_singleton] at h
        subst h
        exact Or.inr ⟨rfl, rfl⟩
  · intro s u path username post_id body body' htext
    unfold add_comment login_required
    dsimp only
    cases hf : get_post_or_404 s username post_id with
    | none => rfl
    | some post =>
      dsimp only
      have hv := commentForm_bind_valid body
      have hv' := commentForm_bind_valid body'
      rw [htext] at hv
      rw [← hv'] at hv
      cases hb : (CommentForm.bind (orNone body')).is_valid with
      | false => rw [hb] at hv; simp [hv, hb]
      | true =>
        rw [hb] at hv
        simp only [hv, hb, Bool.not_true, Bool.false_eq_true, if_false]
        have ht := commentForm_bind_text body
        have ht' := commentForm_bind_text body'
        rw [htext] at ht
        rw [← ht'] at ht
        rw [ht]

/-- Witness for C9: a concrete comment request whose body also forges
`author` and `post` fields. -/
theorem add_comment_authorship_witness :
    (∀ c ∈ (add_comment storeWithPost (some 2) "/test_user/1/comment/"
        "test_user" 1 ⟨some "Test comment", none, some 9, some 7⟩).2.comments,
       c ∈ storeWithPost.comments ∨ (c.author = 2 ∧ c.post = samplePost.id)) ∧
    (add_comment storeWithPost (some 2) "/test_user/1/comment/" "test_user" 1
        ⟨some "Test comment", none, some 9, some 7⟩).2 =
      (add_comment storeWithPost (some 2) "/test_user/1/comment/" "test_user" 1
        ⟨some "Test comment", none, none, none⟩).2 :=
  ⟨add_comment_authorship.1 storeWithPost 2 "/test_user/1/comment/" "test_user"
     1 ⟨some "Test comment", none, some 9, some 7⟩ samplePost (by decide),
   add_comment_authorship.2 storeWithPost 2 "/test_user/1/comment/" "test_user"
     1 ⟨some "Test comment", none, some 9, some 7⟩
     ⟨some "Test comment", none, none, none⟩ rfl⟩

/-- C5: the `follow_index` feed queryset holds exactly the stored posts
whose author the requesting user follows, and the handler renders exactly
that list, paginated, with its count. -/
theorem follow_index_feed_exact :
    (∀ s u p, p ∈ follow_post_list s u ↔
       p ∈ s.posts ∧ ∃ f ∈ s.follows, f.author = p.author ∧ f.user = u) ∧
    (∀ s u path pn author,
       s.users.find? (fun us => us.id == u) = some author →
       follow_index s (some u) path pn =
         (Response.renderFollow author (follow_post_list s u).length
           (get_page (follow_post_list s u) 10 pn), s)) := by
  constructor
  · intro s u p
    unfold follow_post_list
    rw [List.mem_filter]
    simp [List.any_eq_true]
  · intro s u path pn author hf
    unfold follow_index login_required
    dsimp only
    rw [hf]

/-- Witness for C5: in `followStore`, leo's feed is characterised by his
single Follow row and the handler renders it. -/
theorem follow_index_feed_exact_witness :
    (samplePost ∈ follow_post_list followStore 2 ↔
       samplePost ∈ followStore.posts ∧
       ∃ f ∈ followStore.follows,
         f.author = samplePost.author ∧ f.user = 2) ∧
    follow_index followStore (some 2) "/follow/" none =
      (Response.renderFollow leo (follow_post_list followStore 2).length
        (get_page (follow_post_list followStore 2) 10 none), followStore) :=
  ⟨follow_index_feed_exact.1 followStore 2 samplePost,
   follow_index_feed_exact.2 followStore 2 "/follow/" none leo (by decide)⟩

/-- C6: a page slice never exceeds 10 items; an absent page number gives
page 1; a page number above the page count gives the last page; a page
number below 1 gives page 1, the nearest valid page. -/
theorem pagination_spec :
    (∀ (posts : List Post) (pn : Option Nat),
       (get_page posts 10 pn).object_list.length ≤ 10) ∧
    (∀ posts : List Post, (get_page posts 10 none).number = 1) ∧
    (∀ (posts : List Post) (k : Nat), num_pages posts.length 10 < k →
       (get_page posts 10 (some k)).number = num_pages posts.length 10) ∧
    (∀ (posts : List Post) (k : Nat), k < 1 →
       (get_page posts 10 (some k)).number = 1) := by
  refine ⟨?_, ?_, ?_, ?_⟩
  · intro posts pn
    unfold get_page
    exact List.length_take_le _ _
  · intro posts
    rfl
  · intro posts k h
    have h1 : ¬ k < 1 := by omega
    unfold get_page
    simp [h1, h]
  · intro posts k h
    unfold get_page
    simp [h]

/-- Witness for C6 on three pages of posts: page 5 falls back to the last
page (3) and page 0 falls back to page 1. -/
theorem pagination_spec_witness :
    num_pages postList25.length 10 < 5 ∧
    (get_page postList25 10 (some 5)).number = num_pages postList25.length 10 ∧
    (0 : Nat) < 1 ∧
    (get_page postList25 10 (some 0)).number = 1 :=
  ⟨by decide, pagination_spec.2.2.1 postList25 5 (by decide), by decide,
   pagination_spec.2.2.2 postList25 0 (by decide)⟩

/-- C7: when the first GET of `index` finds no fresh cache entry for its
URL, any second GET of the same URL strictly within 20 seconds — even
against a store where new Posts were created meanwhile, which is why the
second store is arbitrary — returns the byte-for-byte cached response
without running the view, and the cache is unchanged. -/
theorem index_cache_window (s s' : Store) (c : Cache) (now nowLater : Nat)
    (url : String) (pn : Option Nat)
    (hmiss : c.find? (fun e => e.url == url && now < e.storedAt + 20) = none)
    (horder : now ≤ nowLater) (hwin : nowLater < now + 20) :
    index s' (index s c now url pn).2 nowLater url pn =
      ((index s c now url pn).1, (index s c now url pn).2) := by
  unfold index cache_page
  rw [hmiss]
  dsimp only
  have hp : (fun e : CacheEntry =>
      e.url == url && decide (nowLater < e.storedAt + 20))
        ⟨url, index_view s pn, now⟩ = true := by
    simp [hwin]
  have hfind : List.find?
      (fun e : CacheEntry => e.url == url && decide (nowLater < e.storedAt + 20))
      (⟨url, index_view s pn, now⟩ :: c) = some ⟨url, index_view s pn, now⟩ :=
    List.find?_cons_of_pos c hp
  rw [hfind]

/-- C3: in every store reachable through the handlers at most one Follow
row exists per (user, author) pair and no row follows its own user; and a
repeated follow or a self-follow request leaves the store — in particular
the Follow table — unchanged. -/
theorem follow_table_invariant :
    (∀ s, Reachable s → FollowInv s) ∧
    (∀ s u path username author,
       get_user_or_404 s username = some author →
       (author.id = u ∨
         s.follows.any (fun f => f.user == u && f.author == author.id)
           = true) →
       profile_follow s (some u) path username =
         (Response.redirect (profileUrl username), s)) := by
  constructor
  · exact fun s h => reachable_followInv s h
  · intro s u path username author hfind hcase
    unfold profile_follow login_required
    dsimp only
    rw [hfind]
    dsimp only
    have hcond : (!(u == author.id) &&
        ((s.follows.any fun f => f.user == u && f.author == author.id)
          == false)) = false := by
      rcases hcase with h | h
      · simp [h]
      · simp [h]
    rw [hcond]
    rfl

/-- Witness for C3: the sample store is reachable (no follows yet) and
satisfies the invariant, and a concrete self-follow request by `test_user`
changes nothing. -/
theorem follow_table_invariant_witness :
    FollowInv storeWithPost ∧
    profile_follow storeWithPost (some 1) "/test_user/follow/" "test_user" =
      (Response.redirect (profileUrl "test_user"), storeWithPost) :=
  ⟨follow_table_invariant.1 storeWithPost (Reachable.init storeWithPost rfl),
   follow_table_invariant.2 storeWithPost 1 "/test_user/follow/" "test_user"
     sampleUser (by decide) (Or.inl rfl)⟩

/-- Witness for C7: an empty cache, a first GET at second 0 and a second
GET at second 19 against a store that meanwhile gained a post. -/
theorem index_cache_window_witness :
    ([] : Cache).find? (fun e => e.url == "/" && (0 : Nat) < e.storedAt + 20)
        = none ∧
    (0 : Nat) ≤ 19 ∧ (19 : Nat) < 0 + 20 ∧
    index storeWithPost (index sampleStore [] 0 "/" none).2 19 "/" none =
      ((index sampleStore [] 0 "/" none).1,
       (index sampleStore [] 0 "/" none).2) :=
  ⟨rfl, by decide, by decide,
   index_cache_window sampleStore storeWithPost [] 0 19 "/" none rfl
     (by decide) (by decide)⟩

end HW05
